import Mathlib

/-!
Verification of the Topapi request-authorization and response-contract layer.

This file gives a shallow embedding of the middleware and route handlers of
the Topapi Express/Supabase API (auth middleware, error-handling middleware,
and the auth, users, profiles, inventory, categories and activity-log
routes).  External collaborators — the Supabase record store and the
identity oracle — are passed in as explicit parameters (oracle functions or
precomputed replies), and each route handler returns, next to its HTTP
result, the list of record-store calls it issued, so that statements such
as "no store call is issued" become statements about that list.

JavaScript strings are modelled as Lean `String`s, but every string
operation the source uses (toLowerCase, trim, startsWith, substring,
truthiness) is reimplemented over the underlying character list so that
all definitions evaluate inside the kernel.
-/

/-- Lowercase one ASCII character, as JavaScript toLowerCase acts on ASCII. -/
def charLower (c : Char) : Char :=
  if 'A' ≤ c ∧ c ≤ 'Z' then Char.ofNat (c.toNat + 32) else c

/-- JavaScript toLowerCase, restricted to ASCII data (all role strings in
the source are ASCII). -/
def jsToLower (s : String) : String := ⟨s.data.map charLower⟩

/-- Character-list prefix test. -/
def listPref : List Char → List Char → Bool
  | [], _ => true
  | _ :: _, [] => false
  | a :: as, b :: bs => a = b && listPref as bs

/-- JavaScript startsWith. -/
def strStarts (s p : String) : Bool := listPref p.data s.data

/-- JavaScript substring(n): drop the first n characters. -/
def strDrop (s : String) (n : Nat) : String := ⟨s.data.drop n⟩

/-- JavaScript whitespace test used by String.prototype.trim (the source
only trims ordinary ASCII whitespace). -/
def isSpaceChar (c : Char) : Bool :=
  c = ' ' || c = '\t' || c = '\n' || c = '\r'

/-- JavaScript trim over the character list. -/
def jsTrim (s : String) : String :=
  ⟨((s.data.dropWhile isSpaceChar).reverse.dropWhile isSpaceChar).reverse⟩

/-- JavaScript `a || d` where `a` is a string-or-undefined: the only falsy
string is the empty string. -/
def jsOrStr (a : Option String) (d : String) : String :=
  match a with
  | some s => if s = "" then d else s
  | none => d

/-- JavaScript `a || null` on a string-or-undefined value (used when the
signup handler stores `normalizedMetadata.name || null`). -/
def jsOrNone (a : Option String) : Option String :=
  match a with
  | some s => if s = "" then none else some s
  | none => none

/-- Hexadecimal digit test, as in the UUID shape accepted by
express-validator isUUID. -/
def hexChar (c : Char) : Bool :=
  c.isDigit || ('a' ≤ c && c ≤ 'f') || ('A' ≤ c && c ≤ 'F')

/-- Split a character list at every dash, keeping empty groups. -/
def splitDash : List Char → List (List Char)
  | [] => [[]]
  | c :: rest =>
    let r := splitDash rest
    if c = '-' then [] :: r
    else
      match r with
      | g :: gs => (c :: g) :: gs
      | [] => [[c]]

/-- The UUID shape checked by express-validator isUUID: five dash-separated
hexadecimal groups of lengths 8-4-4-4-12. -/
def isUUIDStr (s : String) : Bool :=
  match splitDash s.data with
  | [a, b, c, d, e] =>
    a.length = 8 && b.length = 4 && c.length = 4 && d.length = 4 &&
    e.length = 12 && (a ++ b ++ c ++ d ++ e).all hexChar
  | _ => false

/-- The user_metadata object carried by a Supabase auth user: the fields
this API reads or writes. -/
structure Metadata where
  role : Option String
  name : Option String
  language : Option String
deriving Repr, DecidableEq

/-- An authenticated Supabase user as attached to `req.user`. -/
structure AuthUser where
  id : String
  user_metadata : Option Metadata
deriving Repr, DecidableEq

/-- The ApiError class of middleware/errorHandler.js: an HTTP status code
plus a message. -/
structure ApiError where
  statusCode : Nat
  message : String
deriving Repr, DecidableEq

/-- One reply of the identity oracle (`supabase.auth.getUser(token)`): a
`{ data: { user }, error }` pair, or a thrown exception. -/
inductive OracleOutcome where
  | reply (user : Option AuthUser) (error : Bool)
  | thrown
deriving Repr, DecidableEq

/-- The authenticate middleware (middleware/auth.js): requires an
`Authorization: Bearer <token>` header, resolves the token against the
identity oracle, and fails with a 401 ApiError on a missing or malformed
header, an oracle error, an empty oracle result, or an oracle exception. -/
def authenticate (authHeader : Option String)
    (oracle : String → OracleOutcome) : Except ApiError AuthUser :=
  match authHeader with
  | none => .error ⟨401, "No token provided"⟩
  | some h =>
    if strStarts h "Bearer " then
      match oracle (strDrop h 7) with
      | .thrown => .error ⟨401, "Authentication failed"⟩
      | .reply u e =>
        if e then .error ⟨401, "Invalid or expired token"⟩
        else
          match u with
          | none => .error ⟨401, "Invalid or expired token"⟩
          | some usr => .ok usr
    else .error ⟨401, "No token provided"⟩

/-- The optionalAuth middleware (middleware/auth.js): attaches the resolved
user when a well-formed bearer token verifies, and proceeds without a user
on any problem, never failing the request. -/
def optionalAuth (authHeader : Option String)
    (oracle : String → OracleOutcome) : Option AuthUser :=
  match authHeader with
  | none => none
  | some h =>
    if strStarts h "Bearer " then
      match oracle (strDrop h 7) with
      | .reply (some usr) false => some usr
      | _ => none
    else none

/-- The condition under which the requireAdmin middleware lets a request
through: a user is attached, it has user_metadata, and the metadata role is
the exact string "admin" (the source compares with `!== 'admin'`). -/
def requireAdminPass (user : Option AuthUser) : Bool :=
  match user with
  | none => false
  | some u =>
    match u.user_metadata with
    | none => false
    | some m => m.role == some "admin"

/-- The requireAdmin middleware (middleware/auth.js): throws a 403 ApiError
unless `requireAdminPass` holds. -/
def requireAdmin (user : Option AuthUser) : Except ApiError Unit :=
  if requireAdminPass user then .ok () else .error ⟨403, "Admin access required"⟩

/-- The inline admin check of routes/users.js (PATCH and DELETE
/api/users/:id): `req.user.user_metadata && req.user.user_metadata.role ===
'Admin'` — note the capitalized literal. -/
def usersRouteIsAdmin (u : AuthUser) : Bool :=
  match u.user_metadata with
  | none => false
  | some m => m.role == some "Admin"

/-- The error object consumed by the global error handler: an optional
carried HTTP status code, a message, and a stack string. -/
structure ErrorShape where
  statusCode : Option Nat
  message : String
  stack : String
deriving Repr, DecidableEq

/-- The JSON failure envelope produced by the global error handler. -/
structure ErrorBody where
  success : Bool
  message : String
  stack : Option String
  timestamp : String
deriving Repr, DecidableEq

/-- An HTTP error response: status plus failure envelope. -/
structure ErrorResponse where
  status : Nat
  body : ErrorBody
deriving Repr, DecidableEq

/-- The global errorHandler middleware (middleware/errorHandler.js).
`statusCode || 500` makes an absent (or zero, hence falsy) carried code
default to 500; the outward message is genericized exactly when the final
status is 500; the stack is included only in development mode. -/
def errorHandler (err : ErrorShape) (development : Bool) (now : String) :
    ErrorResponse :=
  let statusCode :=
    match err.statusCode with
    | some c => if c = 0 then 500 else c
    | none => 500
  { status := statusCode
    body :=
      { success := false
        message := if statusCode = 500 then "Internal server error" else err.message
        stack := if development then some err.stack else none
        timestamp := now } }

deriving instance DecidableEq for Except

/-- A page or limit query parameter as seen by `parseInt(req.query.x)`:
absent, present but not parseable to an integer, or an integer value. -/
inductive QueryVal where
  | absent
  | nonNumeric
  | num (n : Int)
deriving Repr, DecidableEq

/-- JavaScript `parseInt(q) || d`: NaN (absent or non-numeric input) and the
falsy integer 0 both fall back to the default. -/
def jsParseIntOr (q : QueryVal) (d : Int) : Int :=
  match q with
  | .num n => if n = 0 then d else n
  | _ => d

/-- Mathematical ceiling of a/b for b ≠ 0 (and 0 when b = 0), matching
JavaScript Math.ceil(a/b) on integer arguments. -/
def ceilDivInt (a b : Int) : Int :=
  if 0 < b then -((-a) / b)
  else if b < 0 then -(a / (-b))
  else 0

/-- The record store's reply to `.range(f, t)` with an exact count: the
rows from index f through t inclusive (PostgREST range semantics). -/
def storeRange {α : Type} (rows : List α) (f t : Int) : List α :=
  if f < 0 then [] else (rows.drop f.toNat).take (t + 1 - f).toNat

/-- What a list endpoint produced: the range it requested from the store,
the data slice the store returned, and the response pagination block. -/
structure ListEndpointResult (α : Type) where
  rangeFrom : Int
  rangeTo : Int
  data : List α
  page : Int
  limit : Int
  total : Int
  totalPages : Int
deriving Repr, DecidableEq

/-- The shared list-endpoint pagination logic (identical in GET
/api/inventory, /api/users, /api/profiles, /api/categories and
/api/activity-log): parse page and limit with defaults 1 and 10, request
rows offset..offset+limit-1 plus an exact count from the store, and report
page, limit, total and totalPages = ceil(total/limit).  `rows` is the full
ordered list of records matching the request's filters. -/
def listWithPagination {α : Type} (rows : List α) (pageQ limitQ : QueryVal) :
    ListEndpointResult α :=
  let page := jsParseIntOr pageQ 1
  let limit := jsParseIntOr limitQ 10
  let offset := (page - 1) * limit
  { rangeFrom := offset
    rangeTo := offset + limit - 1
    data := storeRange rows offset (offset + limit - 1)
    page := page
    limit := limit
    total := rows.length
    totalPages := ceilDivInt rows.length limit }

/-- Violations of `body(f).trim().notEmpty()`: the field is required and
must be nonempty after trimming. -/
def vRequiredTrimNE (fieldName : String) (v : Option String) : List String :=
  match v with
  | some s => if jsTrim s = "" then [fieldName] else []
  | none => [fieldName]

/-- Violations of `body(f).optional().isIn(allowed)`. -/
def vOptionalIn (fieldName : String) (v : Option String)
    (allowed : List String) : List String :=
  match v with
  | some s => if allowed.contains s then [] else [fieldName]
  | none => []

/-- Violations of a required `isUUID()` check. -/
def vRequiredUUID (fieldName : String) (v : Option String) : List String :=
  match v with
  | some s => if isUUIDStr s then [] else [fieldName]
  | none => [fieldName]

/-- Violations of `body(f).optional().isUUID()`. -/
def vOptionalUUID (fieldName : String) (v : Option String) : List String :=
  match v with
  | some s => if isUUIDStr s then [] else [fieldName]
  | none => []

/-- Violations of `body(f).isInt({ min: 0 })`: required non-negative
integer. -/
def vRequiredInt0 (fieldName : String) (v : Option Int) : List String :=
  match v with
  | some n => if n < 0 then [fieldName] else []
  | none => [fieldName]

/-- Violations of `body(f).optional().isInt({ min: 0 })`. -/
def vOptionalInt0 (fieldName : String) (v : Option Int) : List String :=
  match v with
  | some n => if n < 0 then [fieldName] else []
  | none => []

/-- The request body of POST /api/inventory. -/
structure InvPostBody where
  name : Option String
  department : Option String
  category : Option String
  quantity : Option Int
  min_quantity : Option Int
  unit : Option String
  description : Option String
deriving Repr, DecidableEq

/-- The validator chain of POST /api/inventory (routes/inventory.js):
name, department, category and unit are required nonempty strings,
quantity a required non-negative integer, min_quantity an optional
non-negative integer. -/
def invPostViolations (b : InvPostBody) : List String :=
  vRequiredTrimNE "name" b.name ++
  vRequiredTrimNE "department" b.department ++
  vRequiredTrimNE "category" b.category ++
  vRequiredInt0 "quantity" b.quantity ++
  vOptionalInt0 "min_quantity" b.min_quantity ++
  vRequiredTrimNE "unit" b.unit

/-- The row POST /api/inventory inserts into inventory_items (string
fields trimmed by the validator sanitizers, created_by from the
authenticated user). -/
structure InvInsertRow where
  name : Option String
  department : Option String
  category : Option String
  quantity : Option Int
  min_quantity : Option Int
  unit : Option String
  description : Option String
  created_by : String
deriving Repr, DecidableEq

/-- Build the inventory_items insert row from the sanitized body. -/
def invPostRow (b : InvPostBody) (creator : String) : InvInsertRow :=
  { name := b.name.map jsTrim
    department := b.department.map jsTrim
    category := b.category.map jsTrim
    quantity := b.quantity
    min_quantity := b.min_quantity
    unit := b.unit.map jsTrim
    description := b.description
    created_by := creator }

/-- Outcome of POST /api/inventory: the HTTP result and the list of
insert calls issued to the record store. -/
structure InvPostOutcome where
  result : Except ApiError InvInsertRow
  inserts : List InvInsertRow
deriving Repr, DecidableEq

/-- POST /api/inventory (routes/inventory.js): authenticate, requireAdmin,
validate, then insert; `insertError` is the record store's reply to the
insert. -/
def postInventory (authHeader : Option String)
    (oracle : String → OracleOutcome) (b : InvPostBody)
    (insertError : Option String) : InvPostOutcome :=
  match authenticate authHeader oracle with
  | .error e => ⟨.error e, []⟩
  | .ok u =>
    match requireAdmin (some u) with
    | .error e => ⟨.error e, []⟩
    | .ok _ =>
      if invPostViolations b = [] then
        let row := invPostRow b u.id
        match insertError with
        | some m => ⟨.error ⟨400, m⟩, [row]⟩
        | none => ⟨.ok row, [row]⟩
      else ⟨.error ⟨400, "Validation failed"⟩, []⟩

/-- Outcome of DELETE /api/categories/:id: the HTTP result and the list of
delete calls (target ids) issued to the record store. -/
structure CatDeleteOutcome where
  result : Except ApiError Unit
  deletes : List String
deriving Repr, DecidableEq

/-- DELETE /api/categories/:id (routes/categories.js): authenticate,
requireAdmin, validate the id parameter, then delete; `deleteError` is the
record store's reply. -/
def deleteCategory (authHeader : Option String)
    (oracle : String → OracleOutcome) (idParam : String)
    (deleteError : Option String) : CatDeleteOutcome :=
  match authenticate authHeader oracle with
  | .error e => ⟨.error e, []⟩
  | .ok u =>
    match requireAdmin (some u) with
    | .error e => ⟨.error e, []⟩
    | .ok _ =>
      if isUUIDStr idParam then
        match deleteError with
        | some m => ⟨.error ⟨400, m⟩, [idParam]⟩
        | none => ⟨.ok (), [idParam]⟩
      else ⟨.error ⟨400, "Invalid category ID"⟩, []⟩

/-- Allowed role values in the profiles-route validators:
`isIn(['Admin', 'admin', 'Staff', 'staff'])`. -/
def profilesRoleAllowed : List String := ["Admin", "admin", "Staff", "staff"]

/-- Allowed language values in the profiles-route validators:
`isIn(['en', 'es'])`. -/
def profilesLanguageAllowed : List String := ["en", "es"]

/-- The request body of POST /api/profiles and PATCH
/api/profiles/:user_id (user_id only used by POST). -/
structure ProfileBody where
  user_id : Option String
  name : Option String
  role : Option String
  language : Option String
deriving Repr, DecidableEq

/-- The validator chain of POST /api/profiles (routes/profiles.js):
user_id required UUID, role and language optional members of their
enumerations, name only sanitized. -/
def profilesPostViolations (b : ProfileBody) : List String :=
  vRequiredUUID "user_id" b.user_id ++
  vOptionalIn "role" b.role profilesRoleAllowed ++
  vOptionalIn "language" b.language profilesLanguageAllowed

/-- The validator chain of PATCH /api/profiles/:user_id: the user_id path
parameter must be a UUID, role and language optional members of their
enumerations. -/
def profilesPatchViolations (user_idParam : String) (b : ProfileBody) :
    List String :=
  (if isUUIDStr user_idParam then [] else ["user_id"]) ++
  vOptionalIn "role" b.role profilesRoleAllowed ++
  vOptionalIn "language" b.language profilesLanguageAllowed

/-- The row POST /api/profiles inserts into the profiles table: role
defaulted to 'Staff' and lowercased, language defaulted to 'en'. -/
structure ProfileInsertRow where
  user_id : String
  name : Option String
  role : String
  language : String
deriving Repr, DecidableEq

/-- Outcome of POST /api/profiles. -/
structure ProfilePostOutcome where
  result : Except ApiError ProfileInsertRow
  inserts : List ProfileInsertRow
deriving Repr, DecidableEq

/-- POST /api/profiles (routes/profiles.js): authenticate, validate,
require that the caller is creating their own profile (no admin
exemption), then insert. -/
def postProfile (authHeader : Option String)
    (oracle : String → OracleOutcome) (b : ProfileBody)
    (insertError : Option String) : ProfilePostOutcome :=
  match authenticate authHeader oracle with
  | .error e => ⟨.error e, []⟩
  | .ok u =>
    if profilesPostViolations b = [] then
      match b.user_id with
      | some uid =>
        if u.id = uid then
          let row : ProfileInsertRow :=
            { user_id := uid
              name := b.name.map jsTrim
              role := jsToLower (jsOrStr b.role "Staff")
              language := jsOrStr b.language "en" }
          match insertError with
          | some m => ⟨.error ⟨400, m⟩, [row]⟩
          | none => ⟨.ok row, [row]⟩
        else ⟨.error ⟨403, "Forbidden: You can only create your own profile"⟩, []⟩
      | none => ⟨.error ⟨400, "Validation failed"⟩, []⟩
    else ⟨.error ⟨400, "Validation failed"⟩, []⟩

/-- The updates object PATCH /api/profiles/:user_id sends to the store:
name trimmed, role lowercased, language as given; only fields present in
the body are included, and this route sets no updated_at. -/
structure ProfileUpdates where
  name : Option String
  role : Option String
  language : Option String
deriving Repr, DecidableEq

/-- Build the profiles-table updates object from the PATCH body. -/
def profilesPatchUpdates (b : ProfileBody) : ProfileUpdates :=
  { name := b.name.map jsTrim
    role := b.role.map jsToLower
    language := b.language }

/-- Outcome of PATCH /api/profiles/:user_id: the HTTP result and the list
of update calls (target user_id and updates object) issued to the store. -/
structure ProfilePatchOutcome where
  result : Except ApiError ProfileUpdates
  updates : List (String × ProfileUpdates)
deriving Repr, DecidableEq

/-- PATCH /api/profiles/:user_id (routes/profiles.js): authenticate,
validate, require `req.user.id === user_id` — the owner only, with no
admin exemption — then update. -/
def patchProfile (authHeader : Option String)
    (oracle : String → OracleOutcome) (user_idParam : String)
    (b : ProfileBody) (updateError : Option String) : ProfilePatchOutcome :=
  match authenticate authHeader oracle with
  | .error e => ⟨.error e, []⟩
  | .ok u =>
    if profilesPatchViolations user_idParam b = [] then
      if u.id = user_idParam then
        let upd := profilesPatchUpdates b
        match updateError with
        | some m => ⟨.error ⟨400, m⟩, [(user_idParam, upd)]⟩
        | none => ⟨.ok upd, [(user_idParam, upd)]⟩
      else ⟨.error ⟨403, "Forbidden: You can only update your own profile"⟩, []⟩
    else ⟨.error ⟨400, "Validation failed"⟩, []⟩

/-- The request body of PATCH /api/users/:id — note this route declares no
body validators at all: name, role and language are forwarded as given. -/
structure UsersPatchBody where
  name : Option String
  role : Option String
  language : Option String
deriving Repr, DecidableEq

/-- The updates object PATCH /api/users/:id sends to the profiles table:
fields copied unchecked from the body, plus updated_at. -/
structure UsersUpdates where
  name : Option String
  role : Option String
  language : Option String
  updated_at : String
deriving Repr, DecidableEq

/-- Build the users-route updates object: no enumeration check and no
normalization is applied to role or language. -/
def usersPatchUpdates (b : UsersPatchBody) (now : String) : UsersUpdates :=
  { name := b.name
    role := b.role
    language := b.language
    updated_at := now }

/-- Outcome of PATCH /api/users/:id: the HTTP result and the update calls
(target user_id and updates object) issued to the profiles table.  The
conditional mirror of the same fields into the identity service's user
metadata is a call to the auth service, not the record store, and is not
listed here. -/
structure UsersPatchOutcome where
  result : Except ApiError UsersUpdates
  updates : List (String × UsersUpdates)
deriving Repr, DecidableEq

/-- PATCH /api/users/:id (routes/users.js): authenticate, validate the id
parameter, allow the owner or a principal whose metadata role is exactly
'Admin', then update the profiles table. -/
def patchUser (authHeader : Option String)
    (oracle : String → OracleOutcome) (idParam : String)
    (b : UsersPatchBody) (now : String) (updateError : Option String) :
    UsersPatchOutcome :=
  match authenticate authHeader oracle with
  | .error e => ⟨.error e, []⟩
  | .ok u =>
    if isUUIDStr idParam then
      if u.id = idParam ∨ usersRouteIsAdmin u then
        let upd := usersPatchUpdates b now
        match updateError with
        | some m => ⟨.error ⟨400, m⟩, [(idParam, upd)]⟩
        | none => ⟨.ok upd, [(idParam, upd)]⟩
      else
        ⟨.error ⟨403,
          "Forbidden: You can only update your own profile or need admin access"⟩,
         []⟩
    else ⟨.error ⟨400, "Validation failed"⟩, []⟩

/-- Outcome of DELETE /api/profiles/:user_id: the HTTP result and the
delete calls (target user_ids) issued to the profiles table. -/
structure ProfileDeleteOutcome where
  result : Except ApiError Unit
  deletes : List String
deriving Repr, DecidableEq

/-- DELETE /api/profiles/:user_id (routes/profiles.js): authenticate,
validate the user_id parameter, require `req.user.id === user_id` — the
owner only, with no admin exemption — then delete; `deleteError` is the
record store's reply. -/
def deleteProfile (authHeader : Option String)
    (oracle : String → OracleOutcome) (user_idParam : String)
    (deleteError : Option String) : ProfileDeleteOutcome :=
  match authenticate authHeader oracle with
  | .error e => ⟨.error e, []⟩
  | .ok u =>
    if isUUIDStr user_idParam then
      if u.id = user_idParam then
        match deleteError with
        | some m => ⟨.error ⟨400, m⟩, [user_idParam]⟩
        | none => ⟨.ok (), [user_idParam]⟩
      else ⟨.error ⟨403, "Forbidden: You can only delete your own profile"⟩, []⟩
    else ⟨.error ⟨400, "Invalid user ID"⟩, []⟩

/-- Outcome of DELETE /api/users/:id: the HTTP result and the delete
calls (target user_ids) issued to the profiles table. -/
structure UsersDeleteOutcome where
  result : Except ApiError Unit
  deletes : List String
deriving Repr, DecidableEq

/-- DELETE /api/users/:id (routes/users.js): authenticate, validate the
id parameter, allow the owner or a principal whose metadata role is
exactly 'Admin', then delete the profiles-table row. -/
def deleteUser (authHeader : Option String)
    (oracle : String → OracleOutcome) (idParam : String)
    (deleteError : Option String) : UsersDeleteOutcome :=
  match authenticate authHeader oracle with
  | .error e => ⟨.error e, []⟩
  | .ok u =>
    if isUUIDStr idParam then
      if u.id = idParam ∨ usersRouteIsAdmin u then
        match deleteError with
        | some m => ⟨.error ⟨400, m⟩, [idParam]⟩
        | none => ⟨.ok (), [idParam]⟩
      else
        ⟨.error ⟨403,
          "Forbidden: You can only delete your own profile or need admin access"⟩,
         []⟩
    else ⟨.error ⟨400, "Invalid user ID"⟩, []⟩

/-- The request body of POST /api/auth/signup. -/
structure SignupBody where
  email : String
  password : String
  metadata : Option Metadata
deriving Repr, DecidableEq

/-- The signup validator chain: email must satisfy the library email check
(passed in as `emailOk`, since isEmail is an external-library predicate)
and the password must have at least 6 characters. -/
def signupViolations (emailOk : Bool) (b : SignupBody) : List String :=
  (if emailOk then [] else ["email"]) ++
  (if b.password.data.length < 6 then ["password"] else [])

/-- The normalized role the signup handler stores:
`(metadata?.role || 'Staff').toLowerCase()`. -/
def signupNormalizedRole (b : SignupBody) : String :=
  jsToLower (jsOrStr (b.metadata.bind (fun m => m.role)) "Staff")

/-- The data returned by the identity oracle's signUp call. -/
structure SignUpData where
  userId : String
  session : Option String
deriving Repr, DecidableEq

/-- The row the signup handler inserts into the profiles table. -/
structure SignupProfileRow where
  user_id : String
  name : Option String
  role : String
  language : String
deriving Repr, DecidableEq

/-- Outcome of POST /api/auth/signup: the HTTP result, the profile insert
calls issued, and the compensating account deletions performed. -/
structure SignupOutcome where
  result : Except ApiError SignUpData
  profileInserts : List SignupProfileRow
  deletedUsers : List String
deriving Repr, DecidableEq

/-- POST /api/auth/signup (routes/auth.js): authenticate, requireAdmin,
validate, create the account at the identity oracle (`signUpRes`), insert
the paired profile row (`profileInsertError` is the store's reply), and on
profile-insert failure delete the just-created account and fail with a
500. -/
def signup (authHeader : Option String) (oracle : String → OracleOutcome)
    (emailOk : Bool) (b : SignupBody)
    (signUpRes : Except String SignUpData)
    (profileInsertError : Option String) : SignupOutcome :=
  match authenticate authHeader oracle with
  | .error e => ⟨.error e, [], []⟩
  | .ok u =>
    match requireAdmin (some u) with
    | .error e => ⟨.error e, [], []⟩
    | .ok _ =>
      if signupViolations emailOk b = [] then
        match signUpRes with
        | .error m => ⟨.error ⟨400, m⟩, [], []⟩
        | .ok d =>
          let row : SignupProfileRow :=
            { user_id := d.userId
              name := jsOrNone (b.metadata.bind (fun m => m.name))
              role := signupNormalizedRole b
              language := jsOrStr (b.metadata.bind (fun m => m.language)) "en" }
          match profileInsertError with
          | some _ =>
            ⟨.error ⟨500,
               "Failed to create user profile. User account has been cleaned up."⟩,
             [row], [d.userId]⟩
          | none => ⟨.ok d, [row], []⟩
      else ⟨.error ⟨400, "Validation failed"⟩, [], []⟩

/-- The request body of POST /api/activity-log. -/
structure ActivityLogBody where
  user_id : Option String
  action : Option String
  item_id : Option String
  item_name : Option String
deriving Repr, DecidableEq

/-- The validator chain of POST /api/activity-log: action must be one of
created/updated/deleted, item_name required nonempty, user_id and item_id
optional UUIDs. -/
def activityLogViolations (b : ActivityLogBody) : List String :=
  (match b.action with
   | some a => if ["created", "updated", "deleted"].contains a then [] else ["action"]
   | none => ["action"]) ++
  vRequiredTrimNE "item_name" b.item_name ++
  vOptionalUUID "user_id" b.user_id ++
  vOptionalUUID "item_id" b.item_id

/-- The row POST /api/activity-log inserts: user_id from the body when
given (truthy), otherwise the authenticated principal's id. -/
structure ActivityLogRow where
  user_id : String
  action : String
  item_id : Option String
  item_name : String
deriving Repr, DecidableEq

/-- Outcome of POST /api/activity-log. -/
structure ActivityLogOutcome where
  result : Except ApiError ActivityLogRow
  inserts : List ActivityLogRow
deriving Repr, DecidableEq

/-- POST /api/activity-log (routes/activity-log.js): authenticate (no
admin gate), validate, then insert with
`user_id: user_id || req.user.id`. -/
def postActivityLog (authHeader : Option String)
    (oracle : String → OracleOutcome) (b : ActivityLogBody)
    (insertError : Option String) : ActivityLogOutcome :=
  match authenticate authHeader oracle with
  | .error e => ⟨.error e, []⟩
  | .ok u =>
    if activityLogViolations b = [] then
      match b.action, b.item_name with
      | some act, some itn =>
        let row : ActivityLogRow :=
          { user_id := jsOrStr b.user_id u.id
            action := act
            item_id := b.item_id
            item_name := jsTrim itn }
        match insertError with
        | some m => ⟨.error ⟨400, m⟩, [row]⟩
        | none => ⟨.ok row, [row]⟩
      | _, _ => ⟨.error ⟨400, "Validation failed"⟩, []⟩
    else ⟨.error ⟨400, "Validation failed"⟩, []⟩

/-- An inventory_items record as stored. -/
structure InventoryItem where
  id : String
  name : String
  department : String
  category : String
  quantity : Int
  min_quantity : Int
  unit : String
  description : Option String
  created_at : String
  created_by : String
  updated_at : String
deriving Repr, DecidableEq

/-- The request body of PATCH /api/inventory/:id (all fields optional). -/
structure InvPatchBody where
  name : Option String
  department : Option String
  category : Option String
  quantity : Option Int
  min_quantity : Option Int
  unit : Option String
  description : Option String
deriving Repr, DecidableEq

/-- The updates object PATCH /api/inventory/:id sends to the store: the
defined body fields (strings trimmed by the sanitizers) plus updated_at
set to the current time. -/
structure InvUpdates where
  name : Option String
  department : Option String
  category : Option String
  quantity : Option Int
  min_quantity : Option Int
  unit : Option String
  description : Option String
  updated_at : String
deriving Repr, DecidableEq

/-- Build the inventory updates object from the PATCH body
(routes/inventory.js lines 301-310). -/
def invPatchUpdates (b : InvPatchBody) (now : String) : InvUpdates :=
  { name := b.name.map jsTrim
    department := b.department.map jsTrim
    category := b.category.map jsTrim
    quantity := b.quantity
    min_quantity := b.min_quantity
    unit := b.unit.map jsTrim
    description := b.description
    updated_at := now }

/-- The record store's column-update semantics for
`.update(updates).eq('id', ...)`: each column named in the updates object
is overwritten, all others keep their stored value. -/
def applyInvUpdates (upd : InvUpdates) (r : InventoryItem) : InventoryItem :=
  { r with
    name := upd.name.getD r.name
    department := upd.department.getD r.department
    category := upd.category.getD r.category
    quantity := upd.quantity.getD r.quantity
    min_quantity := upd.min_quantity.getD r.min_quantity
    unit := upd.unit.getD r.unit
    description :=
      match upd.description with
      | some d => some d
      | none => r.description
    updated_at := upd.updated_at }

/-- Overwriting twice with the same optional value equals overwriting once. -/
theorem getD_of_getD {α : Type} (o : Option α) (x : α) :
    o.getD (o.getD x) = o.getD x := by
  cases o <;> rfl

/-- C9: the inventory update is idempotent: applying the updates object
built from the same PATCH body a second time (at the time of the repeated
issue) produces exactly the record a single issue at that time produces —
no field accumulates. -/
theorem inventory_update_idempotent (b : InvPatchBody) (t1 t2 : String)
    (r : InventoryItem) :
    applyInvUpdates (invPatchUpdates b t2)
        (applyInvUpdates (invPatchUpdates b t1) r) =
      applyInvUpdates (invPatchUpdates b t2) r := by
  rcases b with ⟨n, d, c, q, mq, un, ds⟩
  cases n <;> cases d <;> cases c <;> cases q <;> cases mq <;> cases un <;>
    cases ds <;> rfl

/-- C8: every failure response has the envelope
success=false/error-message/optional-stack/timestamp, its HTTP status is
the carried status code (defaulting to 500 when none is carried), the
outward message is the generic string exactly on status 500, and the stack
appears only in development mode. -/
theorem error_envelope_contract (err : ErrorShape) (dev : Bool) (now : String) :
    (errorHandler err dev now).body.success = false ∧
    (errorHandler err dev now).body.timestamp = now ∧
    (err.statusCode = none → (errorHandler err dev now).status = 500) ∧
    (∀ c, err.statusCode = some c → 0 < c → (errorHandler err dev now).status = c) ∧
    ((errorHandler err dev now).status = 500 →
      (errorHandler err dev now).body.message = "Internal server error") ∧
    ((errorHandler err dev now).status ≠ 500 →
      (errorHandler err dev now).body.message = err.message) ∧
    (errorHandler err dev now).body.stack = (if dev then some err.stack else none) := by
  rcases err with ⟨sc, msg, st⟩
  cases sc with
  | none => simp [errorHandler]
  | some c =>
    rcases eq_or_ne c 0 with hc | hc
    · subst hc; simp [errorHandler]
    · rcases eq_or_ne c 500 with h5 | h5
      · subst h5; simp [errorHandler]
      · simp [errorHandler, hc, h5]

/-- Witness for the error-envelope contract at a concrete 404 failure. -/
theorem error_envelope_contract_witness :
    (errorHandler ⟨some 404, "Category not found", "tr"⟩ false "T").status = 404 ∧
    (errorHandler ⟨some 404, "Category not found", "tr"⟩ false "T").body.message =
      "Category not found" := by
  have h := error_envelope_contract ⟨some 404, "Category not found", "tr"⟩ false "T"
  have hst := h.2.2.2.1 404 rfl (by decide)
  exact ⟨hst, h.2.2.2.2.2.1 (by rw [hst]; decide)⟩

/-- A principal whose metadata role is the cased string "Admin". -/
def adminCasedUser : AuthUser :=
  ⟨"8a6e0804-2bd0-4672-b79d-d97027f9071a", some ⟨some "Admin", none, none⟩⟩

/-- C1 counterexample: the principal's role "Admin" lowercases to "admin",
yet the requireAdmin gate rejects it with 403 — the admin check is not
case-insensitive. -/
theorem admin_check_not_case_insensitive :
    jsToLower "Admin" = "admin" ∧
    requireAdminPass (some adminCasedUser) = false ∧
    requireAdmin (some adminCasedUser) = .error ⟨403, "Admin access required"⟩ := by
  exact ⟨by decide, by decide, by decide⟩

/-- C1 (amended): both admin checks are case-sensitive string comparisons:
the requireAdmin gate passes exactly when the principal carries metadata
whose role is the exact string "admin", while the inline admin check of
the users route passes exactly when the role is the exact string "Admin";
an unauthenticated request never passes the gate. -/
theorem admin_checks_case_sensitive (u : AuthUser) :
    (requireAdminPass (some u) = true ↔
      ∃ m, u.user_metadata = some m ∧ m.role = some "admin") ∧
    (usersRouteIsAdmin u = true ↔
      ∃ m, u.user_metadata = some m ∧ m.role = some "Admin") ∧
    requireAdminPass none = false := by
  rcases u with ⟨i, mo⟩
  cases mo with
  | none => simp [requireAdminPass, usersRouteIsAdmin]
  | some m => simp [requireAdminPass, usersRouteIsAdmin]

/-- Ceiling-division characterization: for a positive divisor,
ceilDivInt a b is the least integer q with a ≤ b * q. -/
theorem ceilDivInt_spec (a b : Int) (hb : 0 < b) :
    a ≤ b * ceilDivInt a b ∧ b * ceilDivInt a b < a + b := by
  unfold ceilDivInt
  rw [if_pos hb]
  have h1 := Int.ediv_add_emod (-a) b
  have h2 := Int.emod_nonneg (-a) (ne_of_gt hb)
  have h3 := Int.emod_lt_of_pos (-a) hb
  have h4 : b * -((-a) / b) = -(b * ((-a) / b)) := by ring
  constructor <;> linarith

/-- C7: list pagination: page and limit default to 1 and 10 on absent or
non-numeric query parameters, the store is asked for rows
offset=(page-1)*limit through offset+limit-1 inclusive plus a total count,
the response reports the genuine ceiling totalPages = ceil(total/limit),
and on 25 matching records with limit 10 totalPages is 3 while page 4
returns an empty data slice still reporting total 25 and totalPages 3. -/
theorem pagination_contract {α : Type} (rows : List α) (pageQ limitQ : QueryVal) :
    ((pageQ = QueryVal.absent ∨ pageQ = QueryVal.nonNumeric) →
      (listWithPagination rows pageQ limitQ).page = 1) ∧
    ((limitQ = QueryVal.absent ∨ limitQ = QueryVal.nonNumeric) →
      (listWithPagination rows pageQ limitQ).limit = 10) ∧
    (listWithPagination rows pageQ limitQ).rangeFrom =
      ((listWithPagination rows pageQ limitQ).page - 1) *
        (listWithPagination rows pageQ limitQ).limit ∧
    (listWithPagination rows pageQ limitQ).rangeTo =
      (listWithPagination rows pageQ limitQ).rangeFrom +
        (listWithPagination rows pageQ limitQ).limit - 1 ∧
    (listWithPagination rows pageQ limitQ).data =
      storeRange rows (listWithPagination rows pageQ limitQ).rangeFrom
        (listWithPagination rows pageQ limitQ).rangeTo ∧
    (listWithPagination rows pageQ limitQ).total = rows.length ∧
    (0 < (listWithPagination rows pageQ limitQ).limit →
      (listWithPagination rows pageQ limitQ).total ≤
        (listWithPagination rows pageQ limitQ).limit *
          (listWithPagination rows pageQ limitQ).totalPages ∧
      (listWithPagination rows pageQ limitQ).limit *
          (listWithPagination rows pageQ limitQ).totalPages <
        (listWithPagination rows pageQ limitQ).total +
          (listWithPagination rows pageQ limitQ).limit) ∧
    (listWithPagination (List.range 25) (QueryVal.num 1) (QueryVal.num 10)).totalPages = 3 ∧
    (listWithPagination (List.range 25) (QueryVal.num 4) (QueryVal.num 10)).data = [] ∧
    (listWithPagination (List.range 25) (QueryVal.num 4) (QueryVal.num 10)).total = 25 ∧
    (listWithPagination (List.range 25) (QueryVal.num 4) (QueryVal.num 10)).totalPages = 3 := by
  refine ⟨?_, ?_, rfl, rfl, rfl, rfl, ?_, by decide, by decide, by decide, by decide⟩
  · rintro (h | h) <;> subst h <;> rfl
  · rintro (h | h) <;> subst h <;> rfl
  · intro hl
    exact ceilDivInt_spec rows.length (jsParseIntOr limitQ 10) hl

/-- Witness for the pagination contract: defaults at absent parameters. -/
theorem pagination_contract_witness :
    (listWithPagination (List.range 25) QueryVal.absent QueryVal.absent).page = 1 ∧
    (listWithPagination (List.range 25) QueryVal.absent QueryVal.absent).limit = 10 ∧
    25 ≤ (listWithPagination (List.range 25) QueryVal.absent QueryVal.absent).limit *
      (listWithPagination (List.range 25) QueryVal.absent QueryVal.absent).totalPages := by
  have h := pagination_contract (List.range 25) QueryVal.absent QueryVal.absent
  refine ⟨h.1 (Or.inl rfl), h.2.1 (Or.inl rfl), ?_⟩
  have := (h.2.2.2.2.2.2.1 (by decide)).1
  simpa using this

/-- C4: mandatory verification (authenticate) fails, always with status
401, exactly when the header is absent or not of Bearer form or the
oracle errs, returns no user, or throws; it succeeds exactly when
optionalAuth attaches the same principal, and optionalAuth attaches no
principal exactly when mandatory verification fails. -/
theorem token_verification_contract (authHeader : Option String)
    (oracle : String → OracleOutcome) :
    (∀ e, authenticate authHeader oracle = .error e → e.statusCode = 401) ∧
    ((∃ u, authenticate authHeader oracle = .ok u) ↔
      (∃ h, authHeader = some h ∧ strStarts h "Bearer " = true ∧
        ∃ u, oracle (strDrop h 7) = .reply (some u) false)) ∧
    (∀ u, authenticate authHeader oracle = .ok u ↔
      optionalAuth authHeader oracle = some u) ∧
    (optionalAuth authHeader oracle = none ↔
      ∀ u, authenticate authHeader oracle ≠ .ok u) := by
  cases authHeader with
  | none =>
    refine ⟨?_, ?_, ?_, ?_⟩ <;> simp [authenticate, optionalAuth]
  | some h =>
    by_cases hs : strStarts h "Bearer " = true
    · cases ho : oracle (strDrop h 7) with
      | reply u e =>
        cases e with
        | true => refine ⟨?_, ?_, ?_, ?_⟩ <;> simp [authenticate, optionalAuth, hs, ho]
        | false =>
          cases u with
          | none => refine ⟨?_, ?_, ?_, ?_⟩ <;> simp [authenticate, optionalAuth, hs, ho]
          | some usr =>
            refine ⟨?_, ?_, ?_, ?_⟩ <;> simp [authenticate, optionalAuth, hs, ho]
      | thrown => refine ⟨?_, ?_, ?_, ?_⟩ <;> simp [authenticate, optionalAuth, hs, ho]
    · have hs' : strStarts h "Bearer " = false := by
        simpa using hs
      refine ⟨?_, ?_, ?_, ?_⟩ <;> simp [authenticate, optionalAuth, hs']

/-- A staff principal used as a concrete verification fixture. -/
def okUser : AuthUser :=
  ⟨"11111111-2222-4333-8444-555555555555", some ⟨some "staff", none, some "en"⟩⟩

/-- An identity oracle accepting exactly the token "tok", resolving it to
okUser. -/
def okOracle : String → OracleOutcome :=
  fun t => if t = "tok" then .reply (some okUser) false else .reply none true

/-- Witness for the token-verification contract at a concrete accepted
token and a concrete rejected one. -/
theorem token_verification_contract_witness :
    optionalAuth (some "Bearer tok") okOracle = some okUser ∧
    optionalAuth (some "Bearer bad") okOracle = none := by
  have h1 := token_verification_contract (some "Bearer tok") okOracle
  exact ⟨(h1.2.2.1 okUser).mp (by decide), by decide⟩

/-- An admin principal (lowercase role, the spec's canonical admin). -/
def adminLowerUser : AuthUser :=
  ⟨"aaaaaaaa-aaaa-4aaa-8aaa-aaaaaaaaaaaa", some ⟨some "admin", none, none⟩⟩

/-- An identity oracle resolving every token to adminLowerUser. -/
def adminOracle : String → OracleOutcome :=
  fun _ => .reply (some adminLowerUser) false

/-- A user id distinct from adminLowerUser's id, owner of the target
profile. -/
def ownerTargetId : String := "bbbbbbbb-bbbb-4bbb-8bbb-bbbbbbbbbbbb"

/-- A PATCH body setting the language to "es". -/
def esBody : ProfileBody := ⟨none, none, none, some "es"⟩

/-- C2 counterexample: an admin principal whose id differs from the
target's owner id is rejected with 403 by PATCH /api/profiles/:user_id,
and no store call is issued — the profiles mutation has no admin
exemption. -/
theorem admin_cannot_patch_other_profile :
    requireAdminPass (some adminLowerUser) = true ∧
    adminLowerUser.id ≠ ownerTargetId ∧
    (patchProfile (some "Bearer tok") adminOracle ownerTargetId esBody none).result =
      .error ⟨403, "Forbidden: You can only update your own profile"⟩ ∧
    (patchProfile (some "Bearer tok") adminOracle ownerTargetId esBody none).updates = [] := by
  exact ⟨by decide, by decide, by decide, by decide⟩

/-- C2 (amended): the users-route mutations (PATCH and DELETE
/api/users/:id) are permitted exactly to the owner or a principal with
metadata role exactly 'Admin', while the profiles-route mutations (POST,
PATCH and DELETE /api/profiles/:user_id) are permitted to the owner only —
any other principal, admin or not, receives 403 and no store call is
issued. -/
theorem profile_user_mutation_ownership (hdr : Option String)
    (oracle : String → OracleOutcome) (uid : String) (b : ProfileBody)
    (upErr : Option String) (idP : String) (ub : UsersPatchBody)
    (now : String) (uErr : Option String) :
    (∀ u, authenticate hdr oracle = .ok u →
      profilesPatchViolations uid b = [] → u.id ≠ uid →
      (patchProfile hdr oracle uid b upErr).result =
        .error ⟨403, "Forbidden: You can only update your own profile"⟩ ∧
      (patchProfile hdr oracle uid b upErr).updates = []) ∧
    ((patchProfile hdr oracle uid b upErr).updates ≠ [] →
      ∃ u, authenticate hdr oracle = .ok u ∧ u.id = uid) ∧
    (∀ u, authenticate hdr oracle = .ok u → isUUIDStr uid = true →
      u.id ≠ uid →
      (deleteProfile hdr oracle uid upErr).result =
        .error ⟨403, "Forbidden: You can only delete your own profile"⟩ ∧
      (deleteProfile hdr oracle uid upErr).deletes = []) ∧
    ((deleteProfile hdr oracle uid upErr).deletes ≠ [] →
      ∃ u, authenticate hdr oracle = .ok u ∧ u.id = uid) ∧
    (∀ u, authenticate hdr oracle = .ok u →
      profilesPostViolations b = [] → b.user_id = some uid → u.id ≠ uid →
      (postProfile hdr oracle b upErr).result =
        .error ⟨403, "Forbidden: You can only create your own profile"⟩ ∧
      (postProfile hdr oracle b upErr).inserts = []) ∧
    ((postProfile hdr oracle b upErr).inserts ≠ [] →
      ∃ u, authenticate hdr oracle = .ok u ∧ b.user_id = some u.id) ∧
    (∀ u, authenticate hdr oracle = .ok u → isUUIDStr idP = true →
      u.id ≠ idP → usersRouteIsAdmin u = false →
      (patchUser hdr oracle idP ub now uErr).result =
        .error ⟨403,
          "Forbidden: You can only update your own profile or need admin access"⟩ ∧
      (patchUser hdr oracle idP ub now uErr).updates = []) ∧
    (∀ u, authenticate hdr oracle = .ok u → isUUIDStr idP = true →
      (u.id = idP ∨ usersRouteIsAdmin u = true) →
      (patchUser hdr oracle idP ub now uErr).updates =
        [(idP, usersPatchUpdates ub now)]) ∧
    (∀ u, authenticate hdr oracle = .ok u → isUUIDStr idP = true →
      u.id ≠ idP → usersRouteIsAdmin u = false →
      (deleteUser hdr oracle idP uErr).result =
        .error ⟨403,
          "Forbidden: You can only delete your own profile or need admin access"⟩ ∧
      (deleteUser hdr oracle idP uErr).deletes = []) ∧
    (∀ u, authenticate hdr oracle = .ok u → isUUIDStr idP = true →
      (u.id = idP ∨ usersRouteIsAdmin u = true) →
      (deleteUser hdr oracle idP uErr).deletes = [idP]) := by
  refine ⟨?_, ?_, ?_, ?_, ?_, ?_, ?_, ?_, ?_, ?_⟩
  · intro u hu hv hne
    simp [patchProfile, hu, hv, hne]
  · intro hne
    cases ha : authenticate hdr oracle with
    | error e => simp [patchProfile, ha] at hne
    | ok u =>
      by_cases hv : profilesPatchViolations uid b = []
      · by_cases hid : u.id = uid
        · exact ⟨u, rfl, hid⟩
        · simp [patchProfile, ha, hv, hid] at hne
      · simp [patchProfile, ha, hv] at hne
  · intro u hu hU hne
    simp [deleteProfile, hu, hU, hne]
  · intro hne
    cases ha : authenticate hdr oracle with
    | error e => simp [deleteProfile, ha] at hne
    | ok u =>
      by_cases hU : isUUIDStr uid = true
      · by_cases hid : u.id = uid
        · exact ⟨u, rfl, hid⟩
        · simp [deleteProfile, ha, hU, hid] at hne
      · have hU2 : isUUIDStr uid = false := by simpa using hU
        simp [deleteProfile, ha, hU2] at hne
  · intro u hu hv hbu hne
    simp [postProfile, hu, hv, hbu, hne]
  · intro hne
    cases ha : authenticate hdr oracle with
    | error e => simp [postProfile, ha] at hne
    | ok u =>
      by_cases hv : profilesPostViolations b = []
      · cases hbu : b.user_id with
        | none => simp [postProfile, ha, hv, hbu] at hne
        | some uid0 =>
          by_cases hid : u.id = uid0
          · exact ⟨u, rfl, by rw [hid]⟩
          · simp [postProfile, ha, hv, hbu, hid] at hne
      · simp [postProfile, ha, hv] at hne
  · intro u hu huuid hne hadm
    simp [patchUser, hu, huuid, hne, hadm]
  · intro u hu huuid hok
    cases uErr with
    | none => simp [patchUser, hu, huuid, hok]
    | some m => simp [patchUser, hu, huuid, hok]
  · intro u hu huuid hne hadm
    simp [deleteUser, hu, huuid, hne, hadm]
  · intro u hu huuid hok
    cases uErr with
    | none => simp [deleteUser, hu, huuid, hok]
    | some m => simp [deleteUser, hu, huuid, hok]

/-- A staff principal acting on their own records. -/
def staffSelfUser : AuthUser :=
  ⟨"cccccccc-cccc-4ccc-8ccc-cccccccccccc", some ⟨some "staff", none, none⟩⟩

/-- An identity oracle resolving every token to staffSelfUser. -/
def staffOracle : String → OracleOutcome :=
  fun _ => .reply (some staffSelfUser) false

/-- Witness for the ownership theorem: the owner's own users-route PATCH
issues exactly one store update, and their own users-route DELETE issues
exactly one store delete. -/
theorem profile_user_mutation_ownership_witness :
    (patchUser (some "Bearer tok") staffOracle
        "cccccccc-cccc-4ccc-8ccc-cccccccccccc" ⟨some "N", none, none⟩ "T" none).updates =
      [("cccccccc-cccc-4ccc-8ccc-cccccccccccc",
        usersPatchUpdates ⟨some "N", none, none⟩ "T")] ∧
    (deleteUser (some "Bearer tok") staffOracle
        "cccccccc-cccc-4ccc-8ccc-cccccccccccc" none).deletes =
      ["cccccccc-cccc-4ccc-8ccc-cccccccccccc"] := by
  have h := profile_user_mutation_ownership (some "Bearer tok") staffOracle
    "cccccccc-cccc-4ccc-8ccc-cccccccccccc" esBody none
    "cccccccc-cccc-4ccc-8ccc-cccccccccccc" ⟨some "N", none, none⟩ "T" none
  exact ⟨h.2.2.2.2.2.2.2.1 staffSelfUser (by decide) (by decide)
      (Or.inl (by decide)),
    h.2.2.2.2.2.2.2.2.2 staffSelfUser (by decide) (by decide)
      (Or.inl (by decide))⟩

/-- An optional isIn validator that reports no violation admits only
listed values. -/
theorem vOptionalIn_nil_mem (f : String) (v : Option String)
    (allowed : List String) (h : vOptionalIn f v allowed = []) :
    ∀ s, v = some s → s ∈ allowed := by
  intro s hv
  subst hv
  simp [vOptionalIn] at h
  exact h

/-- Every value admitted by the profiles role validator lowercases into
the closed role enumeration, default included. -/
theorem roleLower_allowed (s : String) (hs : s ∈ profilesRoleAllowed) :
    jsToLower (jsOrStr (some s) "Staff") ∈ (["admin", "staff"] : List String) := by
  have h4 : s = "Admin" ∨ s = "admin" ∨ s = "Staff" ∨ s = "staff" := by
    simpa [profilesRoleAllowed] using hs
  rcases h4 with h | h | h | h <;> subst h <;> decide

/-- Every value admitted by the profiles role validator lowercases into
the closed role enumeration (updates form). -/
theorem roleLower_allowed_upd (s : String) (hs : s ∈ profilesRoleAllowed) :
    jsToLower s ∈ (["admin", "staff"] : List String) := by
  have h4 : s = "Admin" ∨ s = "admin" ∨ s = "Staff" ∨ s = "staff" := by
    simpa [profilesRoleAllowed] using hs
  rcases h4 with h | h | h | h <;> subst h <;> decide

/-- Values admitted by the language validator are kept verbatim and lie in
the closed language enumeration. -/
theorem langOr_allowed (v : Option String)
    (h : vOptionalIn "language" v profilesLanguageAllowed = []) :
    jsOrStr v "en" ∈ (["en", "es"] : List String) := by
  cases v with
  | none => decide
  | some l =>
    have hl := vOptionalIn_nil_mem "language" (some l) profilesLanguageAllowed h l rfl
    have h2 : l = "en" ∨ l = "es" := by simpa [profilesLanguageAllowed] using hl
    rcases h2 with h2 | h2 <;> subst h2 <;> decide

/-- C3 counterexample: a self-update through PATCH /api/users/:id carries
the out-of-enumeration role value "superuser" into the store update call —
no enumeration check guards this route. -/
theorem users_patch_forwards_unvalidated_role :
    (patchUser (some "Bearer tok") staffOracle
        "cccccccc-cccc-4ccc-8ccc-cccccccccccc"
        ⟨none, some "superuser", none⟩ "T" none).updates =
      [("cccccccc-cccc-4ccc-8ccc-cccccccccccc",
        { name := none, role := some "superuser", language := none,
          updated_at := "T" })] ∧
    ("superuser" : String) ∉ (["admin", "staff"] : List String) ∧
    ("superuser" : String) ∉ profilesRoleAllowed := by
  exact ⟨by decide, by decide, by decide⟩

/-- C3 (amended): the profiles routes reject out-of-enumeration role and
language values with a 400 validation error before any store call, and
every role/language value they actually send to the store lies in the
closed enumerations ({admin, staff} after lowercasing, {en, es}); but
PATCH /api/users/:id applies no enumeration check and forwards the body's
role and language to the store verbatim. -/
theorem profile_enum_enforcement (hdr : Option String)
    (oracle : String → OracleOutcome) (b : ProfileBody)
    (insErr upErr : Option String) (uidP : String)
    (ub : UsersPatchBody) (now : String) :
    (∀ row, row ∈ (postProfile hdr oracle b insErr).inserts →
      row.role ∈ (["admin", "staff"] : List String) ∧
      row.language ∈ (["en", "es"] : List String)) ∧
    (∀ tgt upd, (tgt, upd) ∈ (patchProfile hdr oracle uidP b upErr).updates →
      (∀ r, upd.role = some r → r ∈ (["admin", "staff"] : List String)) ∧
      (∀ l, upd.language = some l → l ∈ (["en", "es"] : List String))) ∧
    (profilesPostViolations b ≠ [] →
      (postProfile hdr oracle b insErr).inserts = [] ∧
      (∀ u, authenticate hdr oracle = .ok u →
        (postProfile hdr oracle b insErr).result =
          .error ⟨400, "Validation failed"⟩)) ∧
    (profilesPatchViolations uidP b ≠ [] →
      (patchProfile hdr oracle uidP b upErr).updates = [] ∧
      (∀ u, authenticate hdr oracle = .ok u →
        (patchProfile hdr oracle uidP b upErr).result =
          .error ⟨400, "Validation failed"⟩)) ∧
    (∀ s, b.role = some s → s ∉ profilesRoleAllowed →
      profilesPostViolations b ≠ []) ∧
    (∀ s, b.language = some s → s ∉ profilesLanguageAllowed →
      profilesPostViolations b ≠ []) ∧
    (usersPatchUpdates ub now).role = ub.role ∧
    (usersPatchUpdates ub now).language = ub.language := by
  refine ⟨?_, ?_, ?_, ?_, ?_, ?_, rfl, rfl⟩
  · intro row hrow
    cases ha : authenticate hdr oracle with
    | error e => simp [postProfile, ha] at hrow
    | ok u =>
      by_cases hv : profilesPostViolations b = []
      · cases hbu : b.user_id with
        | none => simp [profilesPostViolations, vRequiredUUID, hbu] at hv
        | some uid =>
          by_cases hid : u.id = uid
          · have hsplit := hv
            simp only [profilesPostViolations, List.append_eq_nil] at hsplit
            have hrole := hsplit.1.2
            have hlang := hsplit.2
            have hrow' : row =
                { user_id := uid, name := b.name.map jsTrim,
                  role := jsToLower (jsOrStr b.role "Staff"),
                  language := jsOrStr b.language "en" } := by
              cases insErr with
              | none =>
                simp [postProfile, ha, hv, hbu, hid] at hrow
                exact hrow
              | some m =>
                simp [postProfile, ha, hv, hbu, hid] at hrow
                exact hrow
            subst hrow'
            constructor
            · cases hbr : b.role with
              | none =>
                exact (by decide :
                  jsToLower (jsOrStr none "Staff") ∈ (["admin", "staff"] : List String))
              | some s =>
                have hs := vOptionalIn_nil_mem "role" b.role profilesRoleAllowed
                  hrole s hbr
                exact roleLower_allowed s hs
            · exact langOr_allowed b.language hlang
          · simp [postProfile, ha, hv, hbu, hid] at hrow
      · simp [postProfile, ha, hv] at hrow
  · intro tgt upd hupd
    cases ha : authenticate hdr oracle with
    | error e => simp [patchProfile, ha] at hupd
    | ok u =>
      by_cases hv : profilesPatchViolations uidP b = []
      · by_cases hid : u.id = uidP
        · have hsplit := hv
          simp only [profilesPatchViolations, List.append_eq_nil] at hsplit
          have hrole := hsplit.1.2
          have hlang := hsplit.2
          have hupd' : upd = profilesPatchUpdates b := by
            cases upErr with
            | none =>
              simp [patchProfile, ha, hv, hid] at hupd
              exact hupd.2
            | some m =>
              simp [patchProfile, ha, hv, hid] at hupd
              exact hupd.2
          subst hupd'
          constructor
          · intro r hr
            simp only [profilesPatchUpdates] at hr
            cases hbr : b.role with
            | none => rw [hbr] at hr; simp at hr
            | some s =>
              rw [hbr] at hr
              have h2 : jsToLower s = r := by simpa using hr
              have hmem := vOptionalIn_nil_mem "role" b.role profilesRoleAllowed
                hrole s hbr
              rw [← h2]
              exact roleLower_allowed_upd s hmem
          · intro l hl
            simp only [profilesPatchUpdates] at hl
            have hmem := vOptionalIn_nil_mem "language" b.language
              profilesLanguageAllowed hlang l hl
            have h2 : l = "en" ∨ l = "es" := by
              simpa [profilesLanguageAllowed] using hmem
            rcases h2 with h2 | h2 <;> subst h2 <;> decide
        · simp [patchProfile, ha, hv, hid] at hupd
      · simp [patchProfile, ha, hv] at hupd
  · intro hv
    constructor
    · cases ha : authenticate hdr oracle with
      | error e => simp [postProfile, ha]
      | ok u => simp [postProfile, ha, hv]
    · intro u hu
      simp [postProfile, hu, hv]
  · intro hv
    constructor
    · cases ha : authenticate hdr oracle with
      | error e => simp [patchProfile, ha]
      | ok u => simp [patchProfile, ha, hv]
    · intro u hu
      simp [patchProfile, hu, hv]
  · intro s hs hnmem
    intro hnil
    have h3 : vRequiredUUID "user_id" b.user_id = [] ∧
        vOptionalIn "role" b.role profilesRoleAllowed = [] ∧
        vOptionalIn "language" b.language profilesLanguageAllowed = [] := by
      simpa [profilesPostViolations] using hnil
    exact hnmem (vOptionalIn_nil_mem "role" b.role profilesRoleAllowed h3.2.1 s hs)
  · intro s hs hnmem
    intro hnil
    have h3 : vRequiredUUID "user_id" b.user_id = [] ∧
        vOptionalIn "role" b.role profilesRoleAllowed = [] ∧
        vOptionalIn "language" b.language profilesLanguageAllowed = [] := by
      simpa [profilesPostViolations] using hnil
    exact hnmem
      (vOptionalIn_nil_mem "language" b.language profilesLanguageAllowed h3.2.2 s hs)

/-- Witness: a valid cased role "Admin" posted through the profiles route
reaches the store as the lowercase enumeration value "admin". -/
theorem profile_enum_enforcement_witness :
    ({ user_id := "cccccccc-cccc-4ccc-8ccc-cccccccccccc", name := none,
       role := "admin", language := "en" } : ProfileInsertRow).role ∈
      (["admin", "staff"] : List String) := by
  have h := profile_enum_enforcement (some "Bearer tok") staffOracle
    ⟨some "cccccccc-cccc-4ccc-8ccc-cccccccccccc", none, some "Admin", none⟩
    none none "cccccccc-cccc-4ccc-8ccc-cccccccccccc" ⟨none, none, none⟩ "T"
  exact (h.1 ⟨"cccccccc-cccc-4ccc-8ccc-cccccccccccc", none, "admin", "en"⟩
    (by decide)).1

/-- C5: when the account creation succeeds but the profile insert fails,
signup deletes the newly created account and fails with the 500
dependency-failure message; a success result is returned exactly when
authentication, the admin gate, validation, the account creation and the
profile insert all succeed; and no account is deleted unless the profile
insert failed. -/
theorem signup_compensation_contract (hdr : Option String)
    (oracle : String → OracleOutcome) (emailOk : Bool) (b : SignupBody)
    (signUpRes : Except String SignUpData) (profErr : Option String) :
    (∀ u d e, authenticate hdr oracle = .ok u →
      requireAdminPass (some u) = true →
      signupViolations emailOk b = [] →
      signUpRes = .ok d → profErr = some e →
      (signup hdr oracle emailOk b signUpRes profErr).result =
        .error ⟨500,
          "Failed to create user profile. User account has been cleaned up."⟩ ∧
      (signup hdr oracle emailOk b signUpRes profErr).deletedUsers =
        [d.userId]) ∧
    ((∃ d, (signup hdr oracle emailOk b signUpRes profErr).result = .ok d) ↔
      ((∃ u, authenticate hdr oracle = .ok u ∧ requireAdminPass (some u) = true) ∧
       signupViolations emailOk b = [] ∧
       (∃ d, signUpRes = .ok d) ∧ profErr = none)) ∧
    (profErr = none →
      (signup hdr oracle emailOk b signUpRes profErr).deletedUsers = []) := by
  refine ⟨?_, ?_, ?_⟩
  · intro u d e hu hadm hv hs hp
    subst hs
    subst hp
    simp [signup, hu, requireAdmin, hadm, hv]
  · cases ha : authenticate hdr oracle with
    | error er => simp [signup, ha]
    | ok u =>
      by_cases hadm : requireAdminPass (some u) = true
      · by_cases hv : signupViolations emailOk b = []
        · cases signUpRes with
          | error m => simp [signup, ha, requireAdmin, hadm, hv]
          | ok d =>
            cases profErr with
            | none => simp [signup, ha, requireAdmin, hadm, hv]
            | some e => simp [signup, ha, requireAdmin, hadm, hv]
        · simp [signup, ha, requireAdmin, hadm, hv]
      · have hadm' : requireAdminPass (some u) = false := by simpa using hadm
        simp [signup, ha, requireAdmin, hadm']
  · intro hp
    subst hp
    cases ha : authenticate hdr oracle with
    | error er => simp [signup, ha]
    | ok u =>
      by_cases hadm : requireAdminPass (some u) = true
      · by_cases hv : signupViolations emailOk b = []
        · cases signUpRes with
          | error m => simp [signup, ha, requireAdmin, hadm, hv]
          | ok d => simp [signup, ha, requireAdmin, hadm, hv]
        · simp [signup, ha, requireAdmin, hadm, hv]
      · have hadm' : requireAdminPass (some u) = false := by simpa using hadm
        simp [signup, ha, requireAdmin, hadm']

/-- Witness for the signup compensation contract: a concrete admin-called
signup whose profile insert fails deletes the created account and returns
the 500 message. -/
theorem signup_compensation_contract_witness :
    (signup (some "Bearer tok") adminOracle true
        ⟨"a@b.co", "secret99", none⟩
        (.ok ⟨"dddddddd-dddd-4ddd-8ddd-dddddddddddd", some "sess"⟩)
        (some "duplicate key")).result =
      .error ⟨500,
        "Failed to create user profile. User account has been cleaned up."⟩ ∧
    (signup (some "Bearer tok") adminOracle true
        ⟨"a@b.co", "secret99", none⟩
        (.ok ⟨"dddddddd-dddd-4ddd-8ddd-dddddddddddd", some "sess"⟩)
        (some "duplicate key")).deletedUsers =
      ["dddddddd-dddd-4ddd-8ddd-dddddddddddd"] := by
  have h := signup_compensation_contract (some "Bearer tok") adminOracle true
    ⟨"a@b.co", "secret99", none⟩
    (.ok ⟨"dddddddd-dddd-4ddd-8ddd-dddddddddddd", some "sess"⟩)
    (some "duplicate key")
  exact h.1 adminLowerUser ⟨"dddddddd-dddd-4ddd-8ddd-dddddddddddd", some "sess"⟩
    "duplicate key" (by decide) (by decide) (by decide) rfl rfl

/-- C6: a validation failure (in particular quantity = -1 on POST
/api/inventory) yields a 400 with no store insert; an authorization
failure (a non-admin on DELETE /api/categories/:id) yields a 403 with no
store delete; and the store is reached only after validation and the
admin gate both pass. -/
theorem reject_before_store (hdr : Option String)
    (oracle : String → OracleOutcome) (b : InvPostBody)
    (insErr : Option String) (idP : String) (delErr : Option String) :
    (∀ u, authenticate hdr oracle = .ok u → requireAdminPass (some u) = true →
      invPostViolations b ≠ [] →
      (postInventory hdr oracle b insErr).result =
        .error ⟨400, "Validation failed"⟩ ∧
      (postInventory hdr oracle b insErr).inserts = []) ∧
    (b.quantity = some (-1) → (postInventory hdr oracle b insErr).inserts = []) ∧
    (∀ u, authenticate hdr oracle = .ok u → requireAdminPass (some u) = false →
      (deleteCategory hdr oracle idP delErr).result =
        .error ⟨403, "Admin access required"⟩ ∧
      (deleteCategory hdr oracle idP delErr).deletes = []) ∧
    ((postInventory hdr oracle b insErr).inserts ≠ [] →
      invPostViolations b = []) ∧
    ((deleteCategory hdr oracle idP delErr).deletes ≠ [] →
      ∃ u, authenticate hdr oracle = .ok u ∧ requireAdminPass (some u) = true) := by
  refine ⟨?_, ?_, ?_, ?_, ?_⟩
  · intro u hu hadm hv
    simp [postInventory, hu, requireAdmin, hadm, hv]
  · intro hq
    have hv : invPostViolations b ≠ [] := by
      simp [invPostViolations, vRequiredInt0, hq, List.append_eq_nil]
    cases ha : authenticate hdr oracle with
    | error e => simp [postInventory, ha]
    | ok u =>
      by_cases hadm : requireAdminPass (some u) = true
      · simp [postInventory, ha, requireAdmin, hadm, hv]
      · have hadm' : requireAdminPass (some u) = false := by simpa using hadm
        simp [postInventory, ha, requireAdmin, hadm']
  · intro u hu hadm
    simp [deleteCategory, hu, requireAdmin, hadm]
  · intro hne
    cases ha : authenticate hdr oracle with
    | error e => simp [postInventory, ha] at hne
    | ok u =>
      by_cases hadm : requireAdminPass (some u) = true
      · by_cases hv : invPostViolations b = []
        · exact hv
        · simp [postInventory, ha, requireAdmin, hadm, hv] at hne
      · have hadm' : requireAdminPass (some u) = false := by simpa using hadm
        simp [postInventory, ha, requireAdmin, hadm'] at hne
  · intro hne
    cases ha : authenticate hdr oracle with
    | error e => simp [deleteCategory, ha] at hne
    | ok u =>
      by_cases hadm : requireAdminPass (some u) = true
      · exact ⟨u, rfl, hadm⟩
      · have hadm' : requireAdminPass (some u) = false := by simpa using hadm
        simp [deleteCategory, ha, requireAdmin, hadm'] at hne

/-- Witness for reject-before-store: an admin posting quantity -1 gets a
400 validation failure with no insert, and a staff principal deleting a
category gets a 403 with no delete. -/
theorem reject_before_store_witness :
    (postInventory (some "Bearer tok") adminOracle
        ⟨some "Oil", some "Kitchen", some "Dry", some (-1), none, some "bottle", none⟩
        none).result = .error ⟨400, "Validation failed"⟩ ∧
    (postInventory (some "Bearer tok") adminOracle
        ⟨some "Oil", some "Kitchen", some "Dry", some (-1), none, some "bottle", none⟩
        none).inserts = [] ∧
    (deleteCategory (some "Bearer tok") staffOracle
        "bbbbbbbb-bbbb-4bbb-8bbb-bbbbbbbbbbbb" none).result =
      .error ⟨403, "Admin access required"⟩ ∧
    (deleteCategory (some "Bearer tok") staffOracle
        "bbbbbbbb-bbbb-4bbb-8bbb-bbbbbbbbbbbb" none).deletes = [] := by
  have h1 := reject_before_store (some "Bearer tok") adminOracle
    ⟨some "Oil", some "Kitchen", some "Dry", some (-1), none, some "bottle", none⟩
    none "bbbbbbbb-bbbb-4bbb-8bbb-bbbbbbbbbbbb" none
  have h2 := reject_before_store (some "Bearer tok") staffOracle
    ⟨some "Oil", some "Kitchen", some "Dry", some (-1), none, some "bottle", none⟩
    none "bbbbbbbb-bbbb-4bbb-8bbb-bbbbbbbbbbbb" none
  have ha := h1.1 adminLowerUser (by decide) (by decide) (by decide)
  have hc := h2.2.2.1 staffSelfUser (by decide) (by decide)
  exact ⟨ha.1, ha.2, hc.1, hc.2⟩

/-- A valid UUID has the 36-character dashed shape, hence is nonempty. -/
theorem isUUIDStr_ne_empty (s : String) (h : isUUIDStr s = true) : s ≠ "" := by
  intro he
  subst he
  exact absurd h (by decide)

/-- C10: the stored activity-log entry's user_id is the body's user_id
whenever the body supplies one (and any valid UUID passes the user_id
validator, with no ownership check), and is the authenticated principal's
id exactly when the body omits it. -/
theorem activity_log_user_id_attribution (hdr : Option String)
    (oracle : String → OracleOutcome) (b : ActivityLogBody)
    (insErr : Option String) :
    (∀ u, authenticate hdr oracle = .ok u → activityLogViolations b = [] →
      (∀ s, b.user_id = some s →
        ∃ row, (postActivityLog hdr oracle b insErr).inserts = [row] ∧
          row.user_id = s) ∧
      (b.user_id = none →
        ∃ row, (postActivityLog hdr oracle b insErr).inserts = [row] ∧
          row.user_id = u.id)) ∧
    (∀ s, isUUIDStr s = true → vOptionalUUID "user_id" (some s) = []) := by
  constructor
  · intro u hu hv
    have hsplit := hv
    simp only [activityLogViolations, List.append_eq_nil] at hsplit
    have huid := hsplit.1.2
    obtain ⟨act, hact⟩ : ∃ a, b.action = some a := by
      cases hba : b.action with
      | none => rw [hba] at hsplit; exact absurd hsplit.1.1.1 (by decide)
      | some a => exact ⟨a, rfl⟩
    obtain ⟨itn, hitn⟩ : ∃ i, b.item_name = some i := by
      cases hbi : b.item_name with
      | none =>
        rw [hbi] at hsplit
        exact absurd hsplit.1.1.2 (by decide)
      | some i => exact ⟨i, rfl⟩
    constructor
    · intro s hs
      have hUUID : isUUIDStr s = true := by
        rw [hs] at huid
        by_cases hb2 : isUUIDStr s = true
        · exact hb2
        · simp [vOptionalUUID, hb2] at huid
      have hne := isUUIDStr_ne_empty s hUUID
      refine ⟨{ user_id := jsOrStr b.user_id u.id, action := act,
                item_id := b.item_id, item_name := jsTrim itn }, ?_, ?_⟩
      · cases insErr with
        | none => simp [postActivityLog, hu, hv, hact, hitn]
        | some m => simp [postActivityLog, hu, hv, hact, hitn]
      · simp [jsOrStr, hs, hne]
    · intro hs
      refine ⟨{ user_id := jsOrStr b.user_id u.id, action := act,
                item_id := b.item_id, item_name := jsTrim itn }, ?_, ?_⟩
      · cases insErr with
        | none => simp [postActivityLog, hu, hv, hact, hitn]
        | some m => simp [postActivityLog, hu, hv, hact, hitn]
      · simp [jsOrStr, hs]
  · intro s hU
    simp [vOptionalUUID, hU]

/-- Witness for the activity-log attribution: a staff principal logs an
action attributed to a different user's UUID, and the store row carries
that UUID. -/
theorem activity_log_user_id_attribution_witness :
    ∃ row, (postActivityLog (some "Bearer tok") staffOracle
      ⟨some "aaaaaaaa-aaaa-4aaa-8aaa-aaaaaaaaaaaa", some "created", none,
        some "Olive oil"⟩ none).inserts = [row] ∧
      row.user_id = "aaaaaaaa-aaaa-4aaa-8aaa-aaaaaaaaaaaa" := by
  have h := activity_log_user_id_attribution (some "Bearer tok") staffOracle
    ⟨some "aaaaaaaa-aaaa-4aaa-8aaa-aaaaaaaaaaaa", some "created", none,
      some "Olive oil"⟩ none
  exact (h.1 staffSelfUser (by decide) (by decide)).1
    "aaaaaaaa-aaaa-4aaa-8aaa-aaaaaaaaaaaa" rfl
